import Mathlib

/-!
# Verification of `examples/cpp/main.cpp` (vlfd-ffi)

A shallow embedding of the C++ example consumer of the VLFD FFI library:
the output stream `std::cout` is an explicit state (text written so far plus
the sticky integer base flag), the external library is an arbitrary state
machine, and `main` threads both while recording every library call.
-/

namespace Vlfd

/-! ## The output stream `std::cout` -/

/-- The `basefield` format flag of a stream: `std::dec` or `std::hex`. -/
inductive Base where
  | dec
  | hex
  deriving DecidableEq, Repr

/-- State of `std::cout`: the characters written so far and the sticky base flag. -/
structure OStream where
  out : String
  base : Base
  deriving DecidableEq, Repr

/-- A freshly initialised `std::cout`: nothing written, base `dec`. -/
def cout_init : OStream := { out := "", base := Base.dec }

/-- Lowercase hexadecimal digits of `n`, no leading zeros (`0` is `"0"`). -/
def hex_digits (n : Nat) : String := String.mk (Nat.toDigits 16 n)

/-- Decimal digits of `n`. -/
def dec_digits (n : Nat) : String := Nat.repr n

/-- Text produced by `operator<<` for a non-negative integer under base flag `b`. -/
def fmt_num (b : Base) (n : Nat) : String :=
  match b with
  | Base.dec => dec_digits n
  | Base.hex => hex_digits n

/-- `cout << "text"`. -/
def OStream.puts (s : OStream) (t : String) : OStream := { s with out := s.out ++ t }

/-- `cout << 'c'`. -/
def OStream.putc (s : OStream) (c : Char) : OStream := { s with out := s.out ++ String.singleton c }

/-- `cout << n` for an integer `n`: formatted according to the current base flag. -/
def OStream.putn (s : OStream) (n : Nat) : OStream := { s with out := s.out ++ fmt_num s.base n }

/-- `cout << std::hex` / `cout << std::dec`. -/
def OStream.setbase (s : OStream) (b : Base) : OStream := { s with base := b }

/-- `cout.flush()`: the written text and the flags are unchanged. -/
def OStream.flush (s : OStream) : OStream := s

/-- `cout << std::endl`: a newline followed by a flush. -/
def OStream.endl (s : OStream) : OStream := (s.putc '\n').flush

/-! ## Boundary data shapes (declared in `vlfd_ffi.h`) -/

/-- Modelled from the spec: `HotplugEventKind { Arrived, Left }` of the absent header
`vlfd_ffi.h`; `other raw` stands for any enumerator value a C enum object can hold
besides the two named ones. -/
inductive VlfdHotplugEventKind where
  | Arrived
  | Left
  | other (raw : Nat)
  deriving DecidableEq, Repr

/-- Modelled from the spec: `OptionalU16 { has_value: bool, value: u16 }`.  The value is a
natural number; nothing below depends on the bound `value < 65536`. -/
structure VlfdOptionalU16 where
  has_value : Bool
  value : Nat
  deriving DecidableEq, Repr

/-- Modelled from the spec: `OptionalU8 { has_value: bool, value: u8 }`.  The value is a
natural number; nothing below depends on the bound `value < 256`. -/
structure VlfdOptionalU8 where
  has_value : Bool
  value : Nat
  deriving DecidableEq, Repr

/-- Modelled from the spec: `SliceU8 { data: pointer, len: size }`.  `data = none` is
the null pointer; `data = some bytes` points at the readable bytes `bytes`. -/
structure VlfdSliceU8 where
  data : Option (List Nat)
  len : Nat
  deriving DecidableEq, Repr

/-- The read `ports.data[i]`: fails on a null pointer or outside the pointed-to bytes. -/
def VlfdSliceU8.read (ports : VlfdSliceU8) (i : Nat) : Option Nat :=
  match ports.data with
  | none => none
  | some bytes => bytes[i]?

/-- Modelled from the spec: the `DeviceDescriptor` shape carried by an event. -/
structure VlfdDeviceDescriptor where
  bus_number : Nat
  address : Nat
  port_numbers : VlfdSliceU8
  vendor_id : VlfdOptionalU16
  product_id : VlfdOptionalU16
  class_code : VlfdOptionalU8
  sub_class_code : VlfdOptionalU8
  protocol_code : VlfdOptionalU8
  deriving DecidableEq, Repr

/-- Modelled from the spec: `HotplugEvent { kind, device }`. -/
structure VlfdHotplugEvent where
  kind : VlfdHotplugEventKind
  device : VlfdDeviceDescriptor
  deriving DecidableEq, Repr

/-- An untyped `void*`; address `0` is `nullptr`. -/
structure VoidPtr where
  addr : Nat
  deriving DecidableEq, Repr

/-! ## The printing helpers and the callback -/

/-- `event_kind_name`: the `switch` over the event kind. -/
def event_kind_name (kind : VlfdHotplugEventKind) : String :=
  match kind with
  | VlfdHotplugEventKind.Arrived => "arrived"
  | VlfdHotplugEventKind.Left => "left"
  | _ => "unknown"

/-- `print_optional_u16(label, value)`. -/
def print_optional_u16 (label : String) (value : VlfdOptionalU16) (cout : OStream) : OStream :=
  if value.has_value then
    (((((cout.puts "  ").puts label).puts ": 0x").setbase Base.hex).putn value.value).setbase Base.dec
      |>.puts "\n"
  else
    cout

/-- `print_optional_u8(label, value)`; `static_cast<int>` of a `u8` keeps its value. -/
def print_optional_u8 (label : String) (value : VlfdOptionalU8) (cout : OStream) : OStream :=
  if value.has_value then
    (((((cout.puts "  ").puts label).puts ": 0x").setbase Base.hex).putn value.value).setbase Base.dec
      |>.puts "\n"
  else
    cout

/-- One iteration of the port loop body `std::cout << ' ' << static_cast<int>(ports.data[i])`. -/
def ports_body (ports : VlfdSliceU8) (cout : OStream) (i : Nat) : Option OStream :=
  match ports.read i with
  | none => none
  | some b => some ((cout.putc ' ').putn b)

/-- The loop `for (size_t i = 0; i < ports.len; ++i) body`: `i` runs over `0 .. len-1`
in increasing order; a failed read aborts the run. -/
def ports_loop (ports : VlfdSliceU8) (cout : OStream) : Option OStream :=
  (List.range ports.len).foldlM (ports_body ports) cout

/-- `hotplug_callback(user_data, event)`; `event = none` is the null pointer.  The
result is `none` when a read of `ports.data[i]` falls outside the slice. -/
def hotplug_callback (_user_data : VoidPtr) (event : Option VlfdHotplugEvent)
    (cout : OStream) : Option OStream :=
  match event with
  | none => some cout
  | some ev =>
    let c1 := ((cout.puts "Hotplug event: ").puts (event_kind_name ev.kind)).puts "\n"
    let c2 := ((((c1.puts "  bus: ").putn ev.device.bus_number).puts ", address: ").putn
      ev.device.address).puts "\n"
    let ports := ev.device.port_numbers
    let r :=
      if ports.len > 0 ∧ ports.data.isSome then
        (ports_loop ports (c2.puts "  ports:")).map (fun c => c.puts "\n")
      else
        some c2
    r.map (fun c3 =>
      let c4 := print_optional_u16 "vendor" ev.device.vendor_id c3
      let c5 := print_optional_u16 "product" ev.device.product_id c4
      let c6 := print_optional_u8 "class" ev.device.class_code c5
      let c7 := print_optional_u8 "subclass" ev.device.sub_class_code c6
      let c8 := print_optional_u8 "protocol" ev.device.protocol_code c7
      c8.flush)

/-! ## The external library and `main` -/

/-- A `VlfdHotplugRegistration*`; address `0` is `nullptr`. -/
structure VlfdHotplugRegistrationPtr where
  addr : Nat
  deriving DecidableEq, Repr

/-- A `VlfdDevice*`; address `0` is `nullptr`. -/
structure VlfdDevicePtr where
  addr : Nat
  deriving DecidableEq, Repr

/-- Modelled from the spec: `HotplugOptions { enumerate_existing: bool, ... }` of the
absent header; `rest` stands for all the fields the example never touches. -/
structure VlfdHotplugOptions (ρ : Type) where
  enumerate_existing : Bool
  rest : ρ

/-- The type of a hotplug callback function pointer. -/
abbrev VlfdHotplugCallback : Type :=
  VoidPtr → Option VlfdHotplugEvent → OStream → Option OStream

/-- One call of a library function made by the program, with its arguments and result. -/
inductive LibCall (ρ : Type) where
  | hotplug_options_default (ret : VlfdHotplugOptions ρ)
  | hotplug_register (options : VlfdHotplugOptions ρ) (callback : VlfdHotplugCallback)
      (user_data : VoidPtr) (ret : VlfdHotplugRegistrationPtr)
  | hotplug_unregister (registration : VlfdHotplugRegistrationPtr) (ret : Int)
  | io_open (ret : VlfdDevicePtr)
  | io_close (device : VlfdDevicePtr)
  | get_last_error_message (ret : Option String)

/-- The call is `vlfd_hotplug_register`. -/
def LibCall.is_register {ρ : Type} : LibCall ρ → Bool
  | LibCall.hotplug_register _ _ _ _ => true
  | _ => false

/-- The call is `vlfd_hotplug_unregister`. -/
def LibCall.is_unregister {ρ : Type} : LibCall ρ → Bool
  | LibCall.hotplug_unregister _ _ => true
  | _ => false

/-- The call is `vlfd_io_open`. -/
def LibCall.is_io_open {ρ : Type} : LibCall ρ → Bool
  | LibCall.io_open _ => true
  | _ => false

/-- The call is `vlfd_io_close`. -/
def LibCall.is_io_close {ρ : Type} : LibCall ρ → Bool
  | LibCall.io_close _ => true
  | _ => false

/-- The arguments of type `VlfdHotplugRegistration*` that the call passes to the library.
Only `vlfd_hotplug_unregister` has such a parameter: the context of register is a `void*`
and the argument of `vlfd_io_close` is a `VlfdDevice*`. -/
def LibCall.registration_args {ρ : Type} : LibCall ρ → List VlfdHotplugRegistrationPtr
  | LibCall.hotplug_unregister registration _ => [registration]
  | _ => []

/-- An arbitrary behaviour of the external library: a state machine over a state `σ`
of its own, every call of which returns.  `background n` is whatever happens to that
state while the caller sleeps for `n` seconds.  A `const char*` result is `none` for the
null pointer. -/
structure Library (ρ σ : Type) where
  vlfd_hotplug_options_default : σ → VlfdHotplugOptions ρ × σ
  vlfd_hotplug_register :
    VlfdHotplugOptions ρ → VlfdHotplugCallback → VoidPtr → σ → VlfdHotplugRegistrationPtr × σ
  vlfd_hotplug_unregister : VlfdHotplugRegistrationPtr → σ → Int × σ
  vlfd_io_open : σ → VlfdDevicePtr × σ
  vlfd_io_close : VlfdDevicePtr → σ → σ
  vlfd_get_last_error_message : σ → Option String × σ
  background : Nat → σ → σ

/-- Everything the main thread acts on: the library state, `std::cout` as written by the
main thread, and the log of library calls made so far (oldest first). -/
structure World (ρ σ : Type) where
  lib : σ
  cout : OStream
  calls : List (LibCall ρ)

/-- The world at program start. -/
def World.start {ρ σ : Type} (s : σ) : World ρ σ := { lib := s, cout := cout_init, calls := [] }

/-- Calling `vlfd_hotplug_options_default()`. -/
def call_hotplug_options_default {ρ σ : Type} (L : Library ρ σ) (w : World ρ σ) :
    VlfdHotplugOptions ρ × World ρ σ :=
  let r := L.vlfd_hotplug_options_default w.lib
  (r.1, { w with lib := r.2, calls := w.calls ++ [LibCall.hotplug_options_default r.1] })

/-- Calling `vlfd_hotplug_register(&options, callback, user_data)`. -/
def call_hotplug_register {ρ σ : Type} (L : Library ρ σ) (options : VlfdHotplugOptions ρ)
    (callback : VlfdHotplugCallback) (user_data : VoidPtr) (w : World ρ σ) :
    VlfdHotplugRegistrationPtr × World ρ σ :=
  let r := L.vlfd_hotplug_register options callback user_data w.lib
  (r.1, { w with lib := r.2,
                 calls := w.calls ++ [LibCall.hotplug_register options callback user_data r.1] })

/-- Calling `vlfd_hotplug_unregister(registration)`. -/
def call_hotplug_unregister {ρ σ : Type} (L : Library ρ σ)
    (registration : VlfdHotplugRegistrationPtr) (w : World ρ σ) : Int × World ρ σ :=
  let r := L.vlfd_hotplug_unregister registration w.lib
  (r.1, { w with lib := r.2, calls := w.calls ++ [LibCall.hotplug_unregister registration r.1] })

/-- Calling `vlfd_io_open()`. -/
def call_io_open {ρ σ : Type} (L : Library ρ σ) (w : World ρ σ) : VlfdDevicePtr × World ρ σ :=
  let r := L.vlfd_io_open w.lib
  (r.1, { w with lib := r.2, calls := w.calls ++ [LibCall.io_open r.1] })

/-- Calling `vlfd_io_close(device)`. -/
def call_io_close {ρ σ : Type} (L : Library ρ σ) (device : VlfdDevicePtr) (w : World ρ σ) :
    World ρ σ :=
  { w with lib := L.vlfd_io_close device w.lib, calls := w.calls ++ [LibCall.io_close device] }

/-- Calling `vlfd_get_last_error_message()`. -/
def call_get_last_error_message {ρ σ : Type} (L : Library ρ σ) (w : World ρ σ) :
    Option String × World ρ σ :=
  let r := L.vlfd_get_last_error_message w.lib
  (r.1, { w with lib := r.2, calls := w.calls ++ [LibCall.get_last_error_message r.1] })

/-- `std::this_thread::sleep_for(std::chrono::seconds(n))`: the main thread does nothing;
the library may do its background work. -/
def sleep_for {ρ σ : Type} (L : Library ρ σ) (n : Nat) (w : World ρ σ) : World ρ σ :=
  { w with lib := L.background n w.lib }

/-- `print_last_error(prefix)`; `strlen(msg) > 0` is `msg.length > 0`. -/
def print_last_error {ρ σ : Type} (L : Library ρ σ) (pfx : String) (w : World ρ σ) :
    World ρ σ :=
  let r := call_get_last_error_message L w
  let w1 := r.2
  match r.1 with
  | some msg =>
    if msg.length > 0 then
      { w1 with cout := (((w1.cout.puts pfx).puts ": ").puts msg).puts "\n" }
    else
      { w1 with cout := (w1.cout.puts pfx).puts ": (no error message)\n" }
  | none => { w1 with cout := (w1.cout.puts pfx).puts ": (no error message)\n" }

/-- `main()`: the exit status together with the final world. -/
def main {ρ σ : Type} (L : Library ρ σ) (w0 : World ρ σ) : Int × World ρ σ :=
  let r1 := call_hotplug_options_default L w0
  let options : VlfdHotplugOptions ρ := { r1.1 with enumerate_existing := true }
  let r2 := call_hotplug_register L options hotplug_callback ⟨0⟩ r1.2
  let registration := r2.1
  if registration.addr = 0 then
    (1, print_last_error L "Failed to register hotplug callback" r2.2)
  else
    let w3 : World ρ σ :=
      { r2.2 with cout := (r2.2.cout.puts "Hotplug callback registered; waiting for events...").endl }
    let w4 := sleep_for L 20 w3
    let r5 := call_hotplug_unregister L registration w4
    let w6 : World ρ σ :=
      if r5.1 ≠ 0 then
        print_last_error L "Failed to unregister hotplug callback" r5.2
      else
        { r5.2 with cout := (r5.2.cout.puts "Hotplug callback unregistered.").endl }
    let r7 := call_io_open L w6
    let device := r7.1
    let w8 : World ρ σ :=
      if device.addr = 0 then
        print_last_error L "Could not open device (expected if hardware is absent)" r7.2
      else
        call_io_close L device
          { r7.2 with cout := (r7.2.cout.puts "Device opened successfully.").endl }
    (0, w8)

/-- A run of the program from its start against library `L` in state `s`. -/
def run {ρ σ : Type} (L : Library ρ σ) (s : σ) : Int × World ρ σ := main L (World.start s)

/-! ## Concrete inputs used to exercise the model -/

/-- A stateless library behaviour with fixed results: register returns address `reg`,
unregister returns `status`, open returns address `dev`, the error message is `msg`. -/
def fixed_library (reg : Nat) (status : Int) (dev : Nat) (msg : Option String) :
    Library Unit Unit :=
  { vlfd_hotplug_options_default := fun s => ({ enumerate_existing := false, rest := () }, s)
    vlfd_hotplug_register := fun _ _ _ s => (⟨reg⟩, s)
    vlfd_hotplug_unregister := fun _ s => (status, s)
    vlfd_io_open := fun s => (⟨dev⟩, s)
    vlfd_io_close := fun _ s => s
    vlfd_get_last_error_message := fun s => (msg, s)
    background := fun _ s => s }

/-- The event of the concrete scenario: Arrived, bus 1, address 5, ports `[1, 2]`,
vendor absent, product `0x1234`, class `0x09`, subclass and protocol absent. -/
def arrival_event : VlfdHotplugEvent :=
  { kind := VlfdHotplugEventKind.Arrived
    device :=
      { bus_number := 1
        address := 5
        port_numbers := { data := some [1, 2], len := 2 }
        vendor_id := { has_value := false, value := 0 }
        product_id := { has_value := true, value := 0x1234 }
        class_code := { has_value := true, value := 0x09 }
        sub_class_code := { has_value := false, value := 0 }
        protocol_code := { has_value := false, value := 0 } } }

/-- An ill-formed event: its slice announces two ports but points at a single byte. -/
def short_slice_event : VlfdHotplugEvent :=
  { kind := VlfdHotplugEventKind.Left
    device :=
      { bus_number := 1
        address := 5
        port_numbers := { data := some [1], len := 2 }
        vendor_id := { has_value := false, value := 0 }
        product_id := { has_value := false, value := 0 }
        class_code := { has_value := false, value := 0 }
        sub_class_code := { has_value := false, value := 0 }
        protocol_code := { has_value := false, value := 0 } } }

/-- A Left event with two-digit values: bus 255, address 26, ports `[0, 255, 16]`, no
optional field present. -/
def wide_event : VlfdHotplugEvent :=
  { kind := VlfdHotplugEventKind.Left
    device :=
      { bus_number := 255
        address := 26
        port_numbers := { data := some [0, 255, 16], len := 3 }
        vendor_id := { has_value := false, value := 0 }
        product_id := { has_value := false, value := 0 }
        class_code := { has_value := false, value := 0 }
        sub_class_code := { has_value := false, value := 0 }
        protocol_code := { has_value := false, value := 0 } } }

/-- The state of `std::cout` right after a `std::hex` that no `std::dec` has followed. -/
def cout_in_hex : OStream := { out := "", base := Base.hex }

/-! ## Specification-side definitions (written from the words of the claims) -/

/-- Value of one lowercase hexadecimal digit: `0`-`9` and `a`-`f`, nothing else. -/
def hex_digit_value (c : Char) : Option Nat :=
  if 48 ≤ c.toNat ∧ c.toNat ≤ 57 then some (c.toNat - 48)
  else if 97 ≤ c.toNat ∧ c.toNat ≤ 102 then some (c.toNat - 87)
  else none

/-- Value of a most-significant-first string of lowercase hexadecimal digits; `none` as
soon as one character is not such a digit. -/
def hex_value (cs : List Char) : Option Nat :=
  cs.foldl (fun acc c => acc.bind (fun a => (hex_digit_value c).map (fun d => 16 * a + d)))
    (some 0)

/-- The text `t` is `n` "in lowercase hex without leading zeros": it is a non-empty string
of lowercase hex digits whose value is `n`, and it starts with `0` only if it is `"0"`. -/
def is_lower_hex_of (t : String) (n : Nat) : Prop :=
  hex_value t.data = some n ∧ t.data ≠ [] ∧ (t.data.head? = some '0' → t.data = ['0'])

instance (t : String) (n : Nat) : Decidable (is_lower_hex_of t n) := by
  unfold is_lower_hex_of
  infer_instance

/-- Value of one decimal digit: `0`-`9`, nothing else. -/
def dec_digit_value (c : Char) : Option Nat :=
  if 48 ≤ c.toNat ∧ c.toNat ≤ 57 then some (c.toNat - 48) else none

/-- Value of a most-significant-first string of decimal digits; `none` as soon as one
character is not a decimal digit. -/
def dec_value (cs : List Char) : Option Nat :=
  cs.foldl (fun acc c => acc.bind (fun a => (dec_digit_value c).map (fun d => 10 * a + d)))
    (some 0)

/-- The text `t` is `n` "in decimal": a non-empty string of decimal digits whose value is
`n`, starting with `0` only if it is `"0"`. -/
def is_decimal_of (t : String) (n : Nat) : Prop :=
  dec_value t.data = some n ∧ t.data ≠ [] ∧ (t.data.head? = some '0' → t.data = ['0'])

instance (t : String) (n : Nat) : Decidable (is_decimal_of t n) := by
  unfold is_decimal_of
  infer_instance

/-- The word of the kind line, from the words of the claim: `arrived` for an Arrived
event, `left` for a Left event, `unknown` for any other kind value. -/
def spec_kind_word (kind : VlfdHotplugEventKind) : String :=
  if kind = VlfdHotplugEventKind.Arrived then "arrived"
  else if kind = VlfdHotplugEventKind.Left then "left"
  else "unknown"

/-- The port-number sequence a slice stands for: empty behind a null pointer. -/
def port_sequence (ports : VlfdSliceU8) : List Nat :=
  match ports.data with
  | none => []
  | some bytes => bytes

/-- A non-null slice points at exactly `len` readable bytes. -/
def slice_readable (ports : VlfdSliceU8) : Bool :=
  match ports.data with
  | none => true
  | some bytes => bytes.length == ports.len

/-- The port numbers in sequence order, each in decimal after one blank. -/
def spec_ports_items : List Nat → String
  | [] => ""
  | p :: ps => " " ++ dec_digits p ++ spec_ports_items ps

/-- The `"  ports:"` line, present only for a non-empty sequence. -/
def spec_ports_line (seq : List Nat) : String :=
  if seq.isEmpty then "" else "  ports:" ++ spec_ports_items seq ++ "\n"

/-- The line of one optional field, present only when `has_value` is true. -/
def spec_optional_line (label : String) (has_value : Bool) (value : Nat) : String :=
  if has_value then "  " ++ label ++ ": 0x" ++ hex_digits value ++ "\n" else ""

/-- The text the callback is claimed to write for an event: kind line, bus and address
line, ports line, then the lines of the present optional fields in the order vendor,
product, class, subclass, protocol. -/
def spec_event_text (ev : VlfdHotplugEvent) : String :=
  "Hotplug event: " ++ spec_kind_word ev.kind ++ "\n" ++
  ("  bus: " ++ dec_digits ev.device.bus_number ++ ", address: " ++
    dec_digits ev.device.address ++ "\n") ++
  spec_ports_line (port_sequence ev.device.port_numbers) ++
  spec_optional_line "vendor" ev.device.vendor_id.has_value ev.device.vendor_id.value ++
  spec_optional_line "product" ev.device.product_id.has_value ev.device.product_id.value ++
  spec_optional_line "class" ev.device.class_code.has_value ev.device.class_code.value ++
  spec_optional_line "subclass" ev.device.sub_class_code.has_value
    ev.device.sub_class_code.value ++
  spec_optional_line "protocol" ev.device.protocol_code.has_value
    ev.device.protocol_code.value

/-- What `print_last_error` shows for a message: the message itself when it is non-null
and non-empty, the placeholder otherwise. -/
def shown_message (msg : Option String) : String :=
  match msg with
  | some m => if m.length > 0 then m else "(no error message)"
  | none => "(no error message)"


/-! ## Lemmas on the stream and on digit strings -/

theorem digitChar_hex_value (d : Nat) (h : d < 16) : hex_digit_value (Nat.digitChar d) = some d := by
  interval_cases d <;> decide

theorem digitChar_ne_zero (d : Nat) (h : d < 16) (h0 : 0 < d) : Nat.digitChar d ≠ '0' := by
  interval_cases d <;> decide

theorem hex_value_snoc (cs : List Char) (c : Char) :
    hex_value (cs ++ [c]) =
      (hex_value cs).bind (fun a => (hex_digit_value c).map (fun d => 16 * a + d)) := by
  simp [hex_value, List.foldl_append]

theorem toDigitsCore_acc (b : Nat) (fuel : Nat) :
    ∀ (n : Nat) (ds : List Char),
      Nat.toDigitsCore b fuel n ds = Nat.toDigitsCore b fuel n [] ++ ds := by
  induction fuel with
  | zero => intro n ds; simp [Nat.toDigitsCore]
  | succ f ih =>
    intro n ds
    simp only [Nat.toDigitsCore]
    split
    · simp
    · rw [ih (n / b) (Nat.digitChar (n % b) :: ds), ih (n / b) [Nat.digitChar (n % b)]]
      simp

theorem toDigitsCore_hex (fuel : Nat) :
    ∀ n : Nat, n < fuel →
      hex_value (Nat.toDigitsCore 16 fuel n []) = some n ∧
      Nat.toDigitsCore 16 fuel n [] ≠ [] ∧
      (0 < n → (Nat.toDigitsCore 16 fuel n []).head? ≠ some '0') := by
  induction fuel with
  | zero => intro n hn; omega
  | succ f ih =>
    intro n hn
    simp only [Nat.toDigitsCore]
    by_cases hq : n / 16 = 0
    · have hlt : n < 16 := by omega
      have hmod : n % 16 = n := Nat.mod_eq_of_lt hlt
      simp only [hq, if_true, hmod]
      refine ⟨?_, by simp, ?_⟩
      · simp [hex_value, digitChar_hex_value n hlt]
      · intro h0
        simp only [List.head?_cons, ne_eq, Option.some.injEq]
        exact digitChar_ne_zero n hlt h0
    · have hq1 : n / 16 < f := by omega
      obtain ⟨hv, hne, hhd⟩ := ih (n / 16) hq1
      simp only [hq, if_false]
      rw [toDigitsCore_acc]
      refine ⟨?_, by simp, ?_⟩
      · rw [hex_value_snoc, hv]
        simp [digitChar_hex_value (n % 16) (Nat.mod_lt _ (by decide))]
        omega
      · intro _
        have hpos : 0 < n / 16 := Nat.pos_of_ne_zero hq
        cases hl : Nat.toDigitsCore 16 f (n / 16) [] with
        | nil => exact absurd hl hne
        | cons a t =>
          have := hhd hpos
          rw [hl] at this
          simpa using this

/-- The model of hex formatting meets the words "lowercase hex without leading zeros". -/
theorem hex_digits_spec (n : Nat) : is_lower_hex_of (hex_digits n) n := by
  obtain ⟨hv, hne, hhd⟩ := toDigitsCore_hex (n + 1) n (Nat.lt_succ_self n)
  refine ⟨hv, hne, ?_⟩
  intro h
  by_cases h0 : n = 0
  · subst h0
    rfl
  · exact absurd h (hhd (Nat.pos_of_ne_zero h0))

theorem digitChar_dec_value (d : Nat) (h : d < 10) : dec_digit_value (Nat.digitChar d) = some d := by
  interval_cases d <;> decide

theorem dec_value_snoc (cs : List Char) (c : Char) :
    dec_value (cs ++ [c]) =
      (dec_value cs).bind (fun a => (dec_digit_value c).map (fun d => 10 * a + d)) := by
  simp [dec_value, List.foldl_append]

theorem toDigitsCore_dec (fuel : Nat) :
    ∀ n : Nat, n < fuel →
      dec_value (Nat.toDigitsCore 10 fuel n []) = some n ∧
      Nat.toDigitsCore 10 fuel n [] ≠ [] ∧
      (0 < n → (Nat.toDigitsCore 10 fuel n []).head? ≠ some '0') := by
  induction fuel with
  | zero => intro n hn; omega
  | succ f ih =>
    intro n hn
    simp only [Nat.toDigitsCore]
    by_cases hq : n / 10 = 0
    · have hlt : n < 10 := by omega
      have hmod : n % 10 = n := Nat.mod_eq_of_lt hlt
      simp only [hq, if_true, hmod]
      refine ⟨?_, by simp, ?_⟩
      · simp [dec_value, digitChar_dec_value n hlt]
      · intro h0
        simp only [List.head?_cons, ne_eq, Option.some.injEq]
        exact digitChar_ne_zero n (by omega) h0
    · have hq1 : n / 10 < f := by omega
      obtain ⟨hv, hne, hhd⟩ := ih (n / 10) hq1
      simp only [hq, if_false]
      rw [toDigitsCore_acc]
      refine ⟨?_, by simp, ?_⟩
      · rw [dec_value_snoc, hv]
        simp [digitChar_dec_value (n % 10) (Nat.mod_lt _ (by decide))]
        omega
      · intro _
        have hpos : 0 < n / 10 := Nat.pos_of_ne_zero hq
        cases hl : Nat.toDigitsCore 10 f (n / 10) [] with
        | nil => exact absurd hl hne
        | cons a t =>
          have := hhd hpos
          rw [hl] at this
          simpa using this

/-- The model of decimal formatting meets the words "in decimal". -/
theorem dec_digits_spec (n : Nat) : is_decimal_of (dec_digits n) n := by
  obtain ⟨hv, hne, hhd⟩ := toDigitsCore_dec (n + 1) n (Nat.lt_succ_self n)
  refine ⟨hv, hne, ?_⟩
  intro h
  by_cases h0 : n = 0
  · subst h0
    rfl
  · exact absurd h (hhd (Nat.pos_of_ne_zero h0))

/-- The `switch` of `event_kind_name` picks the word the claim names for each kind. -/
theorem event_kind_name_eq_spec (kind : VlfdHotplugEventKind) :
    event_kind_name kind = spec_kind_word kind := by
  cases kind <;> simp [event_kind_name, spec_kind_word]

theorem print_optional_u16_base (label : String) (value : VlfdOptionalU16) (cout : OStream)
    (hb : cout.base = Base.dec) : (print_optional_u16 label value cout).base = Base.dec := by
  unfold print_optional_u16
  split <;> simp [OStream.puts, OStream.putn, OStream.setbase, hb]

theorem print_optional_u8_base (label : String) (value : VlfdOptionalU8) (cout : OStream)
    (hb : cout.base = Base.dec) : (print_optional_u8 label value cout).base = Base.dec := by
  unfold print_optional_u8
  split <;> simp [OStream.puts, OStream.putn, OStream.setbase, hb]

theorem ports_fold_base (ports : VlfdSliceU8) :
    ∀ (l : List Nat) (c c2 : OStream),
      l.foldlM (ports_body ports) c = some c2 → c2.base = c.base := by
  intro l
  induction l with
  | nil =>
    intro c c2 h
    simp at h
    rw [← h]
  | cons i is ih =>
    intro c c2 h
    simp only [List.foldlM_cons, Option.bind_eq_bind] at h
    cases hstep : ports_body ports c i with
    | none => simp [hstep] at h
    | some c1 =>
      rw [hstep, Option.some_bind] at h
      have h1 : c1.base = c.base := by
        unfold ports_body at hstep
        split at hstep
        · simp at hstep
        · simp at hstep
          rw [← hstep]
          simp [OStream.putn, OStream.putc]
      rw [ih c1 c2 h, h1]

/-- Every function of the program that writes to `std::cout` leaves it in decimal mode
when it found it so: whenever the callback returns, for any event, null or not, readable
or not, the stream it returns is in decimal mode.  With `run_keeps_decimal` this makes
decimal mode hold at the entry of every callback in any sequential history that starts
from the initial stream. -/
theorem hotplug_callback_keeps_decimal (user_data : VoidPtr) (event : Option VlfdHotplugEvent)
    (cout c2 : OStream) (hb : cout.base = Base.dec)
    (h : hotplug_callback user_data event cout = some c2) : c2.base = Base.dec := by
  cases event with
  | none =>
    simp [hotplug_callback] at h
    rw [← h, hb]
  | some ev =>
    simp only [hotplug_callback, Option.map_eq_some'] at h
    obtain ⟨c3, hc3, rfl⟩ := h
    have h3 : c3.base = Base.dec := by
      split at hc3
      · simp only [Option.map_eq_some'] at hc3
        obtain ⟨c, hc, rfl⟩ := hc3
        have := ports_fold_base _ _ _ _ hc
        simp [OStream.puts, OStream.putn, this, hb]
      · simp at hc3
        rw [← hc3]
        simp [OStream.puts, OStream.putn, hb]
    simp only [OStream.flush]
    exact print_optional_u8_base _ _ _ (print_optional_u8_base _ _ _
      (print_optional_u8_base _ _ _ (print_optional_u16_base _ _ _
        (print_optional_u16_base _ _ _ h3))))

theorem print_optional_u16_absent (label : String) (x : Nat) (cout : OStream) :
    print_optional_u16 label { has_value := false, value := x } cout = cout := by
  simp [print_optional_u16]

theorem print_optional_u8_absent (label : String) (x : Nat) (cout : OStream) :
    print_optional_u8 label { has_value := false, value := x } cout = cout := by
  simp [print_optional_u8]

theorem print_optional_u16_present (label : String) (v : Nat) (cout : OStream) :
    print_optional_u16 label { has_value := true, value := v } cout =
      { out := cout.out ++ "  " ++ label ++ ": 0x" ++ hex_digits v ++ "\n", base := Base.dec } := by
  simp [print_optional_u16, OStream.puts, OStream.putn, OStream.setbase, fmt_num]

theorem print_optional_u8_present (label : String) (v : Nat) (cout : OStream) :
    print_optional_u8 label { has_value := true, value := v } cout =
      { out := cout.out ++ "  " ++ label ++ ": 0x" ++ hex_digits v ++ "\n", base := Base.dec } := by
  simp [print_optional_u8, OStream.puts, OStream.putn, OStream.setbase, fmt_num]

theorem string_append_right_ne (a b : String) (h : 0 < b.length) : a ≠ a ++ b := by
  intro e
  have hl := congrArg String.length e
  rw [String.length_append] at hl
  omega

/-- The effect of `print_last_error` on the whole world. -/
theorem print_last_error_eq {ρ σ : Type} (L : Library ρ σ) (pfx : String) (w : World ρ σ) :
    print_last_error L pfx w =
      { lib := (L.vlfd_get_last_error_message w.lib).2
        cout := { out := w.cout.out ++ pfx ++ ": " ++
                    shown_message (L.vlfd_get_last_error_message w.lib).1 ++ "\n"
                  base := w.cout.base }
        calls := w.calls ++
          [LibCall.get_last_error_message (L.vlfd_get_last_error_message w.lib).1] } := by
  unfold print_last_error call_get_last_error_message
  generalize L.vlfd_get_last_error_message w.lib = r
  rcases r with ⟨_ | m, s1⟩
  · simp [shown_message, OStream.puts, String.append_assoc]
  · by_cases hl : m.length > 0
    · simp [shown_message, OStream.puts, String.append_assoc, hl]
    · simp [shown_message, OStream.puts, String.append_assoc, hl]

theorem print_optional_u16_eq (label : String) (value : VlfdOptionalU16) (cout : OStream)
    (hb : cout.base = Base.dec) :
    print_optional_u16 label value cout =
      { out := cout.out ++ spec_optional_line label value.has_value value.value
        base := Base.dec } := by
  rcases value with ⟨_ | _, v⟩
  · rw [print_optional_u16_absent]
    rcases cout with ⟨o, b⟩
    simp only at hb
    simp [spec_optional_line, hb]
  · rw [print_optional_u16_present]
    simp [spec_optional_line, String.append_assoc]

theorem print_optional_u8_eq (label : String) (value : VlfdOptionalU8) (cout : OStream)
    (hb : cout.base = Base.dec) :
    print_optional_u8 label value cout =
      { out := cout.out ++ spec_optional_line label value.has_value value.value
        base := Base.dec } := by
  rcases value with ⟨_ | _, v⟩
  · rw [print_optional_u8_absent]
    rcases cout with ⟨o, b⟩
    simp only at hb
    simp [spec_optional_line, hb]
  · rw [print_optional_u8_present]
    simp [spec_optional_line, String.append_assoc]

/-- The port loop over the part `rest` of the slice that is still to be printed. -/
theorem ports_fold (ports : VlfdSliceU8) (bytes : List Nat) (hd : ports.data = some bytes) :
    ∀ (rest done : List Nat) (c : OStream), c.base = Base.dec → bytes = done ++ rest →
      (List.range' done.length rest.length).foldlM (ports_body ports) c =
        some { out := c.out ++ spec_ports_items rest, base := Base.dec } := by
  intro rest
  induction rest with
  | nil =>
    intro done c hb _
    rcases c with ⟨o, b⟩
    simp only at hb
    simp [spec_ports_items, hb]
  | cons p ps ih =>
    intro done c hb hbytes
    have hread : ports.read done.length = some p := by
      simp only [VlfdSliceU8.read, hd, hbytes]
      rw [List.getElem?_append_right (le_refl _)]
      simp
    have hstep : ports_body ports c done.length = some ((c.putc ' ').putn p) := by
      simp [ports_body, hread]
    have hnext := ih (done ++ [p]) ((c.putc ' ').putn p)
      (by simp [OStream.putn, OStream.putc, hb]) (by simp [hbytes])
    simp only [List.length_append, List.length_singleton] at hnext
    simp only [List.length_cons, List.range'_succ, List.foldlM_cons, hstep, Option.bind_eq_bind,
      Option.some_bind, hnext]
    simp [OStream.putn, OStream.putc, hb, fmt_num, spec_ports_items, String.append_assoc]
    rfl

theorem ports_loop_eq (ports : VlfdSliceU8) (bytes : List Nat) (hd : ports.data = some bytes)
    (hlen : bytes.length = ports.len) (c : OStream) (hb : c.base = Base.dec) :
    ports_loop ports c = some { out := c.out ++ spec_ports_items bytes, base := Base.dec } := by
  have h := ports_fold ports bytes hd bytes [] c hb (by simp)
  simp only [List.length_nil] at h
  rw [ports_loop, List.range_eq_range', ← hlen]
  exact h

theorem spec_ports_line_nil : spec_ports_line [] = "" := by
  simp [spec_ports_line]

theorem spec_ports_line_of_ne (seq : List Nat) (h : seq ≠ []) :
    spec_ports_line seq = "  ports:" ++ spec_ports_items seq ++ "\n" := by
  cases seq with
  | nil => exact absurd rfl h
  | cons p ps => simp [spec_ports_line]

/-- The port loop never faults on a readable slice, whatever the stream state. -/
theorem ports_fold_isSome (ports : VlfdSliceU8) (bytes : List Nat)
    (hd : ports.data = some bytes) :
    ∀ (rest done : List Nat) (c : OStream), bytes = done ++ rest →
      ((List.range' done.length rest.length).foldlM (ports_body ports) c).isSome = true := by
  intro rest
  induction rest with
  | nil => intro done c _; simp
  | cons p ps ih =>
    intro done c hbytes
    have hread : ports.read done.length = some p := by
      simp only [VlfdSliceU8.read, hd, hbytes]
      rw [List.getElem?_append_right (le_refl _)]
      simp
    have hstep : ports_body ports c done.length = some ((c.putc ' ').putn p) := by
      simp [ports_body, hread]
    have hnext := ih (done ++ [p]) ((c.putc ' ').putn p) (by simp [hbytes])
    simp only [List.length_append, List.length_singleton] at hnext
    simp only [List.length_cons, List.range'_succ, List.foldlM_cons, hstep, Option.bind_eq_bind,
      Option.some_bind, hnext]

theorem ports_loop_isSome (ports : VlfdSliceU8) (bytes : List Nat)
    (hd : ports.data = some bytes) (hlen : bytes.length = ports.len) (c : OStream) :
    (ports_loop ports c).isSome = true := by
  have h := ports_fold_isSome ports bytes hd bytes [] c (by simp)
  simp only [List.length_nil] at h
  rw [ports_loop, List.range_eq_range', ← hlen]
  exact h

/-- The read model is not vacuous: a slice shorter than its `len` makes the callback fault. -/
theorem callback_faults_outside_slice :
    hotplug_callback ⟨0⟩ (some short_slice_event) cout_init = none := by
  decide

/-- `main` never leaves `std::cout` in another base than decimal. -/
theorem run_keeps_decimal {ρ σ : Type} (L : Library ρ σ) (s : σ) :
    (run L s).2.cout.base = Base.dec := by
  simp only [run, main, call_hotplug_options_default, call_hotplug_register,
    call_hotplug_unregister, call_io_open, call_io_close, sleep_for, World.start,
    print_last_error_eq]
  split_ifs <;> rfl

/-! ## The claims about the printing helpers -/

/-- C5: `print_optional_u16` and `print_optional_u8` reflect absence distinctly from
zero.  With `has_value` false nothing is written, whatever `value` is; with `has_value`
true exactly the line `"  <label>: 0x<hex>\n"` is appended, where `<hex>` is the value in
lowercase hex without leading zeros; and for value `0` the absent and the present
optional give different outputs (nothing versus `"  <label>: 0x0\n"`). -/
theorem C5_optional_absent_distinct_from_zero (label : String) (v : Nat) (cout : OStream) :
    (∀ x : Nat, print_optional_u16 label { has_value := false, value := x } cout = cout) ∧
    (∀ x : Nat, print_optional_u8 label { has_value := false, value := x } cout = cout) ∧
    is_lower_hex_of (hex_digits v) v ∧
    (print_optional_u16 label { has_value := true, value := v } cout).out =
      cout.out ++ "  " ++ label ++ ": 0x" ++ hex_digits v ++ "\n" ∧
    (print_optional_u8 label { has_value := true, value := v } cout).out =
      cout.out ++ "  " ++ label ++ ": 0x" ++ hex_digits v ++ "\n" ∧
    (print_optional_u16 label { has_value := false, value := 0 } cout).out = cout.out ∧
    (print_optional_u16 label { has_value := true, value := 0 } cout).out =
      cout.out ++ ("  " ++ label ++ ": 0x0\n") ∧
    (print_optional_u8 label { has_value := false, value := 0 } cout).out = cout.out ∧
    (print_optional_u8 label { has_value := true, value := 0 } cout).out =
      cout.out ++ ("  " ++ label ++ ": 0x0\n") ∧
    (print_optional_u16 label { has_value := false, value := 0 } cout).out ≠
      (print_optional_u16 label { has_value := true, value := 0 } cout).out ∧
    (print_optional_u8 label { has_value := false, value := 0 } cout).out ≠
      (print_optional_u8 label { has_value := true, value := 0 } cout).out := by
  have hz : hex_digits 0 = "0" := by decide
  have e16 : (print_optional_u16 label { has_value := true, value := 0 } cout).out =
      cout.out ++ ("  " ++ label ++ ": 0x0\n") := by
    rw [print_optional_u16_present, hz]
    simp [String.append_assoc]
  have e8 : (print_optional_u8 label { has_value := true, value := 0 } cout).out =
      cout.out ++ ("  " ++ label ++ ": 0x0\n") := by
    rw [print_optional_u8_present, hz]
    simp [String.append_assoc]
  have hpos : 0 < ("  " ++ label ++ ": 0x0\n").length := by
    simp only [String.length_append]
    have : 0 < ": 0x0\n".length := by decide
    omega
  refine ⟨fun x => print_optional_u16_absent label x cout,
    fun x => print_optional_u8_absent label x cout, hex_digits_spec v, ?_, ?_, ?_, e16, ?_, e8,
    ?_, ?_⟩
  · rw [print_optional_u16_present]
  · rw [print_optional_u8_present]
  · rw [print_optional_u16_absent]
  · rw [print_optional_u8_absent]
  · rw [print_optional_u16_absent, e16]
    exact string_append_right_ne _ _ hpos
  · rw [print_optional_u8_absent, e8]
    exact string_append_right_ne _ _ hpos

/-- C9: `print_last_error` queries `vlfd_get_last_error_message` exactly once and writes
exactly one line: `"<prefix>: <message>\n"` when the returned message is non-null and
non-empty, `"<prefix>: (no error message)\n"` when it is null or empty. -/
theorem C9_print_last_error_line {ρ σ : Type} (L : Library ρ σ) (pfx : String)
    (w : World ρ σ) :
    (print_last_error L pfx w).calls =
      w.calls ++ [LibCall.get_last_error_message (L.vlfd_get_last_error_message w.lib).1] ∧
    (∀ m : String, (L.vlfd_get_last_error_message w.lib).1 = some m → m.length > 0 →
      (print_last_error L pfx w).cout.out = w.cout.out ++ (pfx ++ ": " ++ m ++ "\n")) ∧
    ((L.vlfd_get_last_error_message w.lib).1 = none ∨
        (L.vlfd_get_last_error_message w.lib).1 = some "" →
      (print_last_error L pfx w).cout.out =
        w.cout.out ++ (pfx ++ ": (no error message)\n")) := by
  rw [print_last_error_eq]
  refine ⟨rfl, ?_, ?_⟩
  · intro m hm hl
    simp [hm, shown_message, hl, String.append_assoc]
  · intro h
    rcases h with h | h
    · simp [h, shown_message, String.append_assoc]
    · simp [h, shown_message, String.append_assoc]

/-! ## The claims about the callback -/

/-- C10: `hotplug_callback` never reads outside the borrowed port slice.  For a null
event it returns at once with the stream untouched; for a non-null event whose slice is
either null (with any `len`) or a list of exactly `len` bytes, every read `ports.data[i]`
it performs succeeds, in every stream state. -/
theorem C10_callback_reads_within_slice (user_data : VoidPtr) (ev : VlfdHotplugEvent)
    (cout : OStream) (hs : slice_readable ev.device.port_numbers = true) :
    hotplug_callback user_data none cout = some cout ∧
    (hotplug_callback user_data (some ev) cout).isSome = true := by
  refine ⟨rfl, ?_⟩
  rcases ev with ⟨kind, bus, address, ⟨data, len⟩, vendor, product, cls, sub, proto⟩
  cases data with
  | none => simp [hotplug_callback]
  | some bytes =>
    have hlen : bytes.length = len := by simpa [slice_readable] using hs
    by_cases h0 : len > 0
    · simp only [hotplug_callback, h0, Option.isSome_some, and_self, if_true, Option.isSome_map']
      exact ports_loop_isSome ⟨some bytes, len⟩ bytes rfl hlen _
    · simp [hotplug_callback, h0]

/-! ## The shape of every run of `main` -/

/-- Every run of `main` makes one of five sequences of library calls. -/
theorem run_shapes {ρ σ : Type} (L : Library ρ σ) (s : σ) :
    ∃ (d : VlfdHotplugOptions ρ) (h : VlfdHotplugRegistrationPtr),
      d = (L.vlfd_hotplug_options_default s).1 ∧
      ((h.addr = 0 ∧ (run L s).1 = 1 ∧ ∃ m,
        (run L s).2.calls =
          [LibCall.hotplug_options_default d,
           LibCall.hotplug_register ⟨true, d.rest⟩ hotplug_callback ⟨0⟩ h,
           LibCall.get_last_error_message m]) ∨
      (h.addr ≠ 0 ∧ (run L s).1 = 0 ∧ ∃ (st : Int) (dev : VlfdDevicePtr),
        (st ≠ 0 ∧ dev.addr = 0 ∧ ∃ m1 m2 before,
          (run L s).2.calls =
            [LibCall.hotplug_options_default d,
             LibCall.hotplug_register ⟨true, d.rest⟩ hotplug_callback ⟨0⟩ h,
             LibCall.hotplug_unregister h st,
             LibCall.get_last_error_message m1,
             LibCall.io_open dev,
             LibCall.get_last_error_message m2] ∧
          (run L s).2.cout.out =
            before ++ "Could not open device (expected if hardware is absent)" ++ ": " ++
              shown_message m2 ++ "\n") ∨
        (st ≠ 0 ∧ dev.addr ≠ 0 ∧ ∃ m1,
          (run L s).2.calls =
            [LibCall.hotplug_options_default d,
             LibCall.hotplug_register ⟨true, d.rest⟩ hotplug_callback ⟨0⟩ h,
             LibCall.hotplug_unregister h st,
             LibCall.get_last_error_message m1,
             LibCall.io_open dev,
             LibCall.io_close dev]) ∨
        (st = 0 ∧ dev.addr = 0 ∧ ∃ m2 before,
          (run L s).2.calls =
            [LibCall.hotplug_options_default d,
             LibCall.hotplug_register ⟨true, d.rest⟩ hotplug_callback ⟨0⟩ h,
             LibCall.hotplug_unregister h st,
             LibCall.io_open dev,
             LibCall.get_last_error_message m2] ∧
          (run L s).2.cout.out =
            before ++ "Could not open device (expected if hardware is absent)" ++ ": " ++
              shown_message m2 ++ "\n") ∨
        (st = 0 ∧ dev.addr ≠ 0 ∧
          (run L s).2.calls =
            [LibCall.hotplug_options_default d,
             LibCall.hotplug_register ⟨true, d.rest⟩ hotplug_callback ⟨0⟩ h,
             LibCall.hotplug_unregister h st,
             LibCall.io_open dev,
             LibCall.io_close dev]))) := by
  refine ⟨(L.vlfd_hotplug_options_default s).1,
    (L.vlfd_hotplug_register ⟨true, (L.vlfd_hotplug_options_default s).1.rest⟩ hotplug_callback
      ⟨0⟩ (L.vlfd_hotplug_options_default s).2).1, rfl, ?_⟩
  simp only [run, main, call_hotplug_options_default, call_hotplug_register,
    call_hotplug_unregister, call_io_open, call_io_close, sleep_for, World.start,
    print_last_error_eq, List.nil_append, List.cons_append, List.append_assoc]
  split_ifs with h1 h2 h3 h3
  · left
    exact ⟨h1, rfl, _, rfl⟩
  · right
    exact ⟨h1, rfl, _, _, Or.inl ⟨h2, h3, _, _, _, rfl, rfl⟩⟩
  · right
    exact ⟨h1, rfl, _, _, Or.inr (Or.inl ⟨h2, h3, _, rfl⟩)⟩
  · right
    exact ⟨h1, rfl, _, _, Or.inr (Or.inr (Or.inl ⟨not_not.mp h2, h3, _, _, rfl, rfl⟩))⟩
  · right
    exact ⟨h1, rfl, _, _, Or.inr (Or.inr (Or.inr ⟨not_not.mp h2, h3, rfl⟩))⟩

/-! ## The claims about `main` -/

/-- C1: whatever the library does, if `vlfd_hotplug_register` returns a null pointer then
the very next library call of `main` is `vlfd_get_last_error_message`, it is the last call
of the run, the exit status is 1, and the run contains no call of
`vlfd_hotplug_unregister`, `vlfd_io_open` or `vlfd_io_close`. -/
theorem C1_register_null_queries_error_and_exits_1 {ρ σ : Type} (L : Library ρ σ) (s : σ)
    (i : Nat) (o : VlfdHotplugOptions ρ) (cb : VlfdHotplugCallback) (ud : VoidPtr)
    (hreg : (run L s).2.calls[i]? = some (LibCall.hotplug_register o cb ud ⟨0⟩)) :
    (∃ m, (run L s).2.calls[i + 1]? = some (LibCall.get_last_error_message m)) ∧
    (run L s).2.calls.length = i + 2 ∧
    (run L s).1 = 1 ∧
    ∀ c ∈ (run L s).2.calls,
      c.is_unregister = false ∧ c.is_io_open = false ∧ c.is_io_close = false := by
  obtain ⟨d, h, -, hsh⟩ := run_shapes L s
  rcases hsh with ⟨h0, hexit, m, hc⟩ | ⟨hne, -, st, dev, hsh⟩
  · rw [hc] at hreg ⊢
    rcases i with _ | _ | _ | i
    · simp at hreg
    · refine ⟨⟨m, rfl⟩, rfl, hexit, ?_⟩
      intro c hcm
      simp at hcm
      rcases hcm with rfl | rfl | rfl <;> simp [LibCall.is_unregister, LibCall.is_io_open, LibCall.is_io_close]
    · simp at hreg
    · simp at hreg
  · exfalso
    rcases hsh with ⟨-, -, m1, m2, b, hc, -⟩ | ⟨-, -, m1, hc⟩ | ⟨-, -, m2, b, hc, -⟩ | ⟨-, -, hc⟩ <;>
    · rw [hc] at hreg
      rcases i with _ | _ | _ | _ | _ | _ | i <;> simp at hreg
      apply hne
      rw [hreg.2.2.2]

/-- C2: whatever the library does, if `vlfd_io_open` returns a null pointer then `main`
treats it as non-fatal: the next and last library call is the error-message query, the
output ends with the last-error line for that message, `vlfd_io_close` is never called,
and the exit status is 0 (for every status `vlfd_hotplug_unregister` returned). -/
theorem C2_open_null_is_not_fatal {ρ σ : Type} (L : Library ρ σ) (s : σ) (i : Nat)
    (hopen : (run L s).2.calls[i]? = some (LibCall.io_open ⟨0⟩)) :
    (∃ m before,
      (run L s).2.calls[i + 1]? = some (LibCall.get_last_error_message m) ∧
      (run L s).2.calls.length = i + 2 ∧
      (run L s).2.cout.out =
        before ++ "Could not open device (expected if hardware is absent)" ++ ": " ++
          shown_message m ++ "\n") ∧
    (∀ c ∈ (run L s).2.calls, c.is_io_close = false) ∧
    (run L s).1 = 0 := by
  obtain ⟨d, h, -, hsh⟩ := run_shapes L s
  rcases hsh with ⟨h0, hexit, m, hc⟩ | ⟨hne, hexit, st, dev, hsh⟩
  · exfalso
    rw [hc] at hopen
    rcases i with _ | _ | _ | i <;> simp at hopen
  · rcases hsh with ⟨-, hd, m1, m2, b, hc, hout⟩ | ⟨-, hd, m1, hc⟩ | ⟨-, hd, m2, b, hc, hout⟩ |
      ⟨-, hd, hc⟩
    · rw [hc] at hopen
      rcases i with _ | _ | _ | _ | _ | _ | i <;> simp at hopen
      refine ⟨⟨m2, b, by rw [hc]; rfl, by rw [hc]; rfl, hout⟩, ?_, hexit⟩
      intro c hcm
      rw [hc] at hcm
      simp at hcm
      rcases hcm with rfl | rfl | rfl | rfl | rfl | rfl <;> simp [LibCall.is_io_close]
    · exfalso
      rw [hc] at hopen
      rcases i with _ | _ | _ | _ | _ | _ | i <;> simp at hopen
      apply hd
      rw [hopen]
    · rw [hc] at hopen
      rcases i with _ | _ | _ | _ | _ | i <;> simp at hopen
      refine ⟨⟨m2, b, by rw [hc]; rfl, by rw [hc]; rfl, hout⟩, ?_, hexit⟩
      intro c hcm
      rw [hc] at hcm
      simp at hcm
      rcases hcm with rfl | rfl | rfl | rfl | rfl <;> simp [LibCall.is_io_close]
    · exfalso
      rw [hc] at hopen
      rcases i with _ | _ | _ | _ | _ | i <;> simp at hopen
      apply hd
      rw [hopen]

/-- C3: in every run of `main`, whatever the library does, `vlfd_io_close` is called at
most once, and a call of it is passed a non-null handle that is the result of the library
call just before it, which is the only `vlfd_io_open` call of the run. -/
theorem C3_close_at_most_once_on_opened_handle {ρ σ : Type} (L : Library ρ σ) (s : σ) :
    (run L s).2.calls.countP LibCall.is_io_close ≤ 1 ∧
    ∀ (i : Nat) (dev : VlfdDevicePtr),
      (run L s).2.calls[i]? = some (LibCall.io_close dev) →
        dev.addr ≠ 0 ∧
        (run L s).2.calls.countP LibCall.is_io_open = 1 ∧
        ∃ j, i = j + 1 ∧ (run L s).2.calls[j]? = some (LibCall.io_open dev) := by
  obtain ⟨d, h, -, hsh⟩ := run_shapes L s
  rcases hsh with ⟨h0, hexit, m, hc⟩ | ⟨hne, hexit, st, dev, hsh⟩
  · rw [hc]
    refine ⟨by simp [List.countP_cons, LibCall.is_io_close], ?_⟩
    intro i dev hi
    rcases i with _ | _ | _ | i <;> simp at hi
  · rcases hsh with ⟨-, hd, m1, m2, b, hc, hout⟩ | ⟨-, hd, m1, hc⟩ | ⟨-, hd, m2, b, hc, hout⟩ |
      ⟨-, hd, hc⟩
    · rw [hc]
      refine ⟨by simp [List.countP_cons, LibCall.is_io_close], ?_⟩
      intro i dev2 hi
      rcases i with _ | _ | _ | _ | _ | _ | i <;> simp at hi
    · rw [hc]
      refine ⟨by simp [List.countP_cons, LibCall.is_io_close], ?_⟩
      intro i dev2 hi
      rcases i with _ | _ | _ | _ | _ | _ | i <;> simp at hi
      subst hi
      exact ⟨hd, by simp [List.countP_cons, LibCall.is_io_open], 4, rfl, rfl⟩
    · rw [hc]
      refine ⟨by simp [List.countP_cons, LibCall.is_io_close], ?_⟩
      intro i dev2 hi
      rcases i with _ | _ | _ | _ | _ | i <;> simp at hi
    · rw [hc]
      refine ⟨by simp [List.countP_cons, LibCall.is_io_close], ?_⟩
      intro i dev2 hi
      rcases i with _ | _ | _ | _ | _ | i <;> simp at hi
      subst hi
      exact ⟨hd, by simp [List.countP_cons, LibCall.is_io_open], 3, rfl, rfl⟩

/-- C4: in every run of `main`, `vlfd_hotplug_register` is called exactly once.  If that
call returned a non-null handle, `vlfd_hotplug_unregister` is called exactly once, later in
the run and with exactly that handle, and no library call after it is passed a
registration handle; if it returned null, `vlfd_hotplug_unregister` is never called. -/
theorem C4_register_once_unregister_matches {ρ σ : Type} (L : Library ρ σ) (s : σ) :
    (run L s).2.calls.countP LibCall.is_register = 1 ∧
    ∀ (i : Nat) (o : VlfdHotplugOptions ρ) (cb : VlfdHotplugCallback) (ud : VoidPtr)
      (h : VlfdHotplugRegistrationPtr),
      (run L s).2.calls[i]? = some (LibCall.hotplug_register o cb ud h) →
        (h.addr ≠ 0 →
          (run L s).2.calls.countP LibCall.is_unregister = 1 ∧
          ∃ j st, i < j ∧ (run L s).2.calls[j]? = some (LibCall.hotplug_unregister h st) ∧
            ∀ (k : Nat) (c : LibCall ρ), j < k → (run L s).2.calls[k]? = some c →
              h ∉ c.registration_args) ∧
        (h.addr = 0 → (run L s).2.calls.countP LibCall.is_unregister = 0) := by
  obtain ⟨d, h, -, hsh⟩ := run_shapes L s
  rcases hsh with ⟨h0, hexit, m, hc⟩ | ⟨hne, hexit, st, dev, hsh⟩
  · rw [hc]
    refine ⟨by simp [List.countP_cons, LibCall.is_register], ?_⟩
    intro i o cb ud h2 hi
    rcases i with _ | _ | _ | i <;> simp at hi
    obtain ⟨-, -, -, rfl⟩ := hi
    refine ⟨fun hn => absurd h0 hn, fun _ => ?_⟩
    simp [List.countP_cons, LibCall.is_unregister]
  · rcases hsh with ⟨-, hd, m1, m2, b, hc, hout⟩ | ⟨-, hd, m1, hc⟩ | ⟨-, hd, m2, b, hc, hout⟩ |
      ⟨-, hd, hc⟩
    · rw [hc]
      refine ⟨by simp [List.countP_cons, LibCall.is_register], ?_⟩
      intro i o cb ud h2 hi
      rcases i with _ | _ | _ | _ | _ | _ | i <;> simp at hi
      obtain ⟨-, -, -, rfl⟩ := hi
      refine ⟨fun _ => ⟨by simp [List.countP_cons, LibCall.is_unregister], 2, st, by omega, rfl,
        ?_⟩, fun hz => absurd hz hne⟩
      intro k c hk hkc
      rcases k with _ | _ | _ | _ | _ | _ | k <;> simp at hkc <;> first | omega | skip
      all_goals subst hkc; simp [LibCall.registration_args]
    · rw [hc]
      refine ⟨by simp [List.countP_cons, LibCall.is_register], ?_⟩
      intro i o cb ud h2 hi
      rcases i with _ | _ | _ | _ | _ | _ | i <;> simp at hi
      obtain ⟨-, -, -, rfl⟩ := hi
      refine ⟨fun _ => ⟨by simp [List.countP_cons, LibCall.is_unregister], 2, st, by omega, rfl,
        ?_⟩, fun hz => absurd hz hne⟩
      intro k c hk hkc
      rcases k with _ | _ | _ | _ | _ | _ | k <;> simp at hkc <;> first | omega | skip
      all_goals subst hkc; simp [LibCall.registration_args]
    · rw [hc]
      refine ⟨by simp [List.countP_cons, LibCall.is_register], ?_⟩
      intro i o cb ud h2 hi
      rcases i with _ | _ | _ | _ | _ | i <;> simp at hi
      obtain ⟨-, -, -, rfl⟩ := hi
      refine ⟨fun _ => ⟨by simp [List.countP_cons, LibCall.is_unregister], 2, st, by omega, rfl,
        ?_⟩, fun hz => absurd hz hne⟩
      intro k c hk hkc
      rcases k with _ | _ | _ | _ | _ | k <;> simp at hkc <;> first | omega | skip
      all_goals subst hkc; simp [LibCall.registration_args]
    · rw [hc]
      refine ⟨by simp [List.countP_cons, LibCall.is_register], ?_⟩
      intro i o cb ud h2 hi
      rcases i with _ | _ | _ | _ | _ | i <;> simp at hi
      obtain ⟨-, -, -, rfl⟩ := hi
      refine ⟨fun _ => ⟨by simp [List.countP_cons, LibCall.is_unregister], 2, st, by omega, rfl,
        ?_⟩, fun hz => absurd hz hne⟩
      intro k c hk hkc
      rcases k with _ | _ | _ | _ | _ | k <;> simp at hkc <;> first | omega | skip
      all_goals subst hkc; simp [LibCall.registration_args]

/-- C6: the first library call of `main` is `vlfd_hotplug_options_default()`, and the one
`vlfd_hotplug_register` call of the run is passed the value that call returned with
`enumerate_existing` set to true and all other fields unchanged, the callback
`hotplug_callback`, and a null context. -/
theorem C6_register_options_are_default_with_enumerate {ρ σ : Type} (L : Library ρ σ)
    (s : σ) :
    ∃ (d opts : VlfdHotplugOptions ρ) (h : VlfdHotplugRegistrationPtr),
      d = (L.vlfd_hotplug_options_default s).1 ∧
      (run L s).2.calls[0]? = some (LibCall.hotplug_options_default d) ∧
      (run L s).2.calls[1]? = some (LibCall.hotplug_register opts hotplug_callback ⟨0⟩ h) ∧
      (run L s).2.calls.countP LibCall.is_register = 1 ∧
      opts.enumerate_existing = true ∧
      opts.rest = d.rest := by
  obtain ⟨d, h, hd, hsh⟩ := run_shapes L s
  refine ⟨d, ⟨true, d.rest⟩, h, hd, ?_⟩
  rcases hsh with ⟨h0, hexit, m, hc⟩ | ⟨hne, hexit, st, dev, hsh⟩
  · rw [hc]
    exact ⟨rfl, rfl, by simp [List.countP_cons, LibCall.is_register], rfl, rfl⟩
  · rcases hsh with ⟨-, -, m1, m2, b, hc, -⟩ | ⟨-, -, m1, hc⟩ | ⟨-, -, m2, b, hc, -⟩ |
      ⟨-, -, hc⟩ <;>
    · rw [hc]
      exact ⟨rfl, rfl, by simp [List.countP_cons, LibCall.is_register], rfl, rfl⟩

/-! ## The theorems at concrete inputs -/

/-- C1 at a library whose register call fails: the call at index 1 is the failed
register, the query follows at index 2, and the exit status is 1. -/
theorem C1_register_null_queries_error_and_exits_1_witness :
    (run (fixed_library 0 0 0 (some "no usb")) ()).2.calls[1]? =
      some (LibCall.hotplug_register ⟨true, ()⟩ hotplug_callback ⟨0⟩ ⟨0⟩) ∧
    ((∃ m, (run (fixed_library 0 0 0 (some "no usb")) ()).2.calls[1 + 1]? =
        some (LibCall.get_last_error_message m)) ∧
      (run (fixed_library 0 0 0 (some "no usb")) ()).2.calls.length = 1 + 2 ∧
      (run (fixed_library 0 0 0 (some "no usb")) ()).1 = 1 ∧
      ∀ c ∈ (run (fixed_library 0 0 0 (some "no usb")) ()).2.calls,
        c.is_unregister = false ∧ c.is_io_open = false ∧ c.is_io_close = false) :=
  ⟨rfl, C1_register_null_queries_error_and_exits_1 (fixed_library 0 0 0 (some "no usb")) () 1
    ⟨true, ()⟩ hotplug_callback ⟨0⟩ rfl⟩

/-- C2 at a library whose open call fails after a successful registration. -/
theorem C2_open_null_is_not_fatal_witness :
    (run (fixed_library 1 0 0 (some "no device")) ()).2.calls[3]? =
      some (LibCall.io_open ⟨0⟩) ∧
    ((∃ m before,
        (run (fixed_library 1 0 0 (some "no device")) ()).2.calls[3 + 1]? =
          some (LibCall.get_last_error_message m) ∧
        (run (fixed_library 1 0 0 (some "no device")) ()).2.calls.length = 3 + 2 ∧
        (run (fixed_library 1 0 0 (some "no device")) ()).2.cout.out =
          before ++ "Could not open device (expected if hardware is absent)" ++ ": " ++
            shown_message m ++ "\n") ∧
      (∀ c ∈ (run (fixed_library 1 0 0 (some "no device")) ()).2.calls,
        c.is_io_close = false) ∧
      (run (fixed_library 1 0 0 (some "no device")) ()).1 = 0) :=
  ⟨rfl, C2_open_null_is_not_fatal (fixed_library 1 0 0 (some "no device")) () 3 rfl⟩

/-- C3 at a library where everything succeeds: the close call at index 4 is passed the
handle `2` that the open call at index 3 returned. -/
theorem C3_close_at_most_once_on_opened_handle_witness :
    (run (fixed_library 1 0 2 none) ()).2.calls[4]? = some (LibCall.io_close ⟨2⟩) ∧
    ((⟨2⟩ : VlfdDevicePtr).addr ≠ 0 ∧
      (run (fixed_library 1 0 2 none) ()).2.calls.countP LibCall.is_io_open = 1 ∧
      ∃ j, 4 = j + 1 ∧
        (run (fixed_library 1 0 2 none) ()).2.calls[j]? = some (LibCall.io_open ⟨2⟩)) :=
  ⟨rfl, (C3_close_at_most_once_on_opened_handle (fixed_library 1 0 2 none) ()).2 4 ⟨2⟩ rfl⟩

/-- C4 at a library where everything succeeds: the register call at index 1 returned
handle `1`, and unregister is called once, with that handle. -/
theorem C4_register_once_unregister_matches_witness :
    (run (fixed_library 1 0 2 none) ()).2.calls[1]? =
      some (LibCall.hotplug_register ⟨true, ()⟩ hotplug_callback ⟨0⟩ ⟨1⟩) ∧
    (⟨1⟩ : VlfdHotplugRegistrationPtr).addr ≠ 0 ∧
    ((run (fixed_library 1 0 2 none) ()).2.calls.countP LibCall.is_unregister = 1 ∧
      ∃ j st, 1 < j ∧
        (run (fixed_library 1 0 2 none) ()).2.calls[j]? =
          some (LibCall.hotplug_unregister ⟨1⟩ st) ∧
        ∀ (k : Nat) (c : LibCall Unit), j < k →
          (run (fixed_library 1 0 2 none) ()).2.calls[k]? = some c →
            (⟨1⟩ : VlfdHotplugRegistrationPtr) ∉ c.registration_args) :=
  ⟨rfl, by decide,
    ((C4_register_once_unregister_matches (fixed_library 1 0 2 none) ()).2 1 ⟨true, ()⟩
      hotplug_callback ⟨0⟩ ⟨1⟩ rfl).1 (by decide)⟩

/-- C9 at a library whose message is `"boom"`, where the line shows the message, and at
a library whose message is null, where the line shows the placeholder. -/
theorem C9_print_last_error_line_witness :
    (((fixed_library 0 0 0 (some "boom")).vlfd_get_last_error_message
        (World.start () : World Unit Unit).lib).1 = some "boom" ∧
      "boom".length > 0 ∧
      (print_last_error (fixed_library 0 0 0 (some "boom")) "Failed"
          (World.start ())).cout.out =
        (World.start () : World Unit Unit).cout.out ++ ("Failed" ++ ": " ++ "boom" ++ "\n")) ∧
    (((fixed_library 0 0 0 none).vlfd_get_last_error_message
        (World.start () : World Unit Unit).lib).1 = none ∧
      (print_last_error (fixed_library 0 0 0 none) "Failed" (World.start ())).cout.out =
        (World.start () : World Unit Unit).cout.out ++ ("Failed" ++ ": (no error message)\n")) :=
  ⟨⟨rfl, by decide,
      (C9_print_last_error_line (fixed_library 0 0 0 (some "boom")) "Failed"
        (World.start ())).2.1 "boom" rfl (by decide)⟩,
    ⟨rfl,
      (C9_print_last_error_line (fixed_library 0 0 0 none) "Failed"
        (World.start ())).2.2 (Or.inl rfl)⟩⟩

/-- C10 at the event of the concrete scenario. -/
theorem C10_callback_reads_within_slice_witness :
    slice_readable arrival_event.device.port_numbers = true ∧
    (hotplug_callback ⟨0⟩ none cout_init = some cout_init ∧
      (hotplug_callback ⟨0⟩ (some arrival_event) cout_init).isSome = true) :=
  ⟨by decide, C10_callback_reads_within_slice ⟨0⟩ arrival_event cout_init (by decide)⟩

end Vlfd
